import Mathlib

/-!
Verification development for the BA-AD resource acquisition pipeline.

Shallow embedding of the Python sources under `src/baad/`, with theorems
checking the natural-language specification against the embedded code.
Network interaction is modelled by explicit oracles (one response per
request), the local filesystem by an association list from paths to byte
contents, and CRC-32 by an explicit function parameter (the code calls
out to `binascii.crc32`).
-/

/- ## Filesystem model -/

/-- The local filesystem: an association list from path strings to file
contents (byte lists). -/
abbrev FS : Type := List (String × List Nat)

/-- Contents of the file at path `p`, if it exists. -/
def fsLookup (fs : FS) (p : String) : Option (List Nat) :=
  (List.find? (fun e => e.1 == p) fs).map (·.2)

/-- Delete the file at path `p` (`Path.unlink(missing_ok=True)`). -/
def fsErase (fs : FS) (p : String) : FS :=
  List.filter (fun e => !(e.1 == p)) fs

/-- Write file contents at path `p`, replacing any previous contents
(`open(fp, 'wb')`). -/
def fsWrite (fs : FS) (p : String) (c : List Nat) : FS :=
  (p, c) :: fsErase fs p

/- ## ResourceDownloader (src/baad/utils/ResourceDownloader.py) -/

/-- Result of one `session.head` request inside `get_file_size`:
a parsed `Content-Length` (the `ok` case), a `ClientError`/`ValueError`
(the `clientError` case), or a `TimeoutError`. -/
inductive HeadResult where
  | ok (size : Nat)
  | clientError
  | timeoutError
deriving DecidableEq

/-- Result of one `_attempt_download` call: the full content streamed and
written to the destination file, or a raised exception. -/
inductive GetResult where
  | ok (content : List Nat)
  | netError
deriving DecidableEq

/-- `ResourceDownloader._check_existing_file`: the entry is skipped iff the
destination file exists and its CRC-32 equals the declared `crc`
(ResourceDownloader.py lines 43-51). -/
def checkExistingFile (crc32 : List Nat → Nat) (fs : FS) (fp : String) (crc : Nat) : Bool :=
  match fsLookup fs fp with
  | none => false
  | some c => crc32 c == crc

/-- `ResourceDownloader.get_file_size` loop body (ResourceDownloader.py
lines 134-143): up to 10 iterations; an `ok` answer returns the size, a
`ClientError`/`ValueError` returns `None`, a `TimeoutError` continues the
loop; falling off the loop returns `None`.  Returns the obtained size (if
any) paired with the number of HEAD requests issued. -/
def getFileSizeAux (headResp : Nat → HeadResult) : Nat → Nat → Nat → Option Nat × Nat
  | _, 0, reqs => (none, reqs)
  | i, fuel + 1, reqs =>
    match headResp i with
    | .ok s => (some s, reqs + 1)
    | .clientError => (none, reqs + 1)
    | .timeoutError => getFileSizeAux headResp (i + 1) fuel (reqs + 1)

/-- `ResourceDownloader.get_file_size`: `for i in range(10)` over HEAD
attempts. -/
def getFileSize (headResp : Nat → HeadResult) : Option Nat × Nat :=
  getFileSizeAux headResp 0 10 0

/-- Outcome of the `_download_file_content` retry loop: whether it
succeeded, how many transfer attempts were made, which backoff sleeps
happened (in order), and the resulting filesystem. -/
structure ContentResult where
  success : Bool
  attempts : Nat
  sleeps : List Nat
  fs : FS
deriving DecidableEq

/-- `ResourceDownloader._download_file_content` loop (ResourceDownloader.py
lines 53-71): `for attempt in range(retries)`; a completed transfer whose
byte count equals `size` succeeds; otherwise (short/long read or raised
exception) the attempt fails, and `await asyncio.sleep(2**attempt)` runs
when `attempt < retries - 1`. A completed transfer always overwrites the
destination file (`_attempt_download`, lines 73-85). -/
def downloadFileContentAux (getResp : Nat → GetResult) (fp : String) (size retries : Nat) :
    Nat → Nat → FS → ContentResult
  | attempt, 0, fs => { success := false, attempts := attempt, sleeps := [], fs := fs }
  | attempt, fuel + 1, fs =>
    match getResp attempt with
    | .ok content =>
      let fs' := fsWrite fs fp content
      if content.length = size then
        { success := true, attempts := attempt + 1, sleeps := [], fs := fs' }
      else
        let r := downloadFileContentAux getResp fp size retries (attempt + 1) fuel fs'
        { r with sleeps := (if attempt < retries - 1 then [2 ^ attempt] else []) ++ r.sleeps }
    | .netError =>
      let r := downloadFileContentAux getResp fp size retries (attempt + 1) fuel fs
      { r with sleeps := (if attempt < retries - 1 then [2 ^ attempt] else []) ++ r.sleeps }

/-- `ResourceDownloader._download_file_content` entry point. -/
def downloadFileContent (getResp : Nat → GetResult) (fp : String) (size retries : Nat)
    (fs : FS) : ContentResult :=
  downloadFileContentAux getResp fp size retries 0 retries fs

/-- `ResourceDownloader._verify_download` (ResourceDownloader.py lines
87-93): CRC-32 of the written file against the declared `crc`; on mismatch
the file is deleted (`unlink`) and `False` is returned. -/
def verifyDownload (crc32 : List Nat → Nat) (fs : FS) (fp : String) (crc : Nat) : Bool × FS :=
  if crc32 ((fsLookup fs fp).getD []) == crc then (true, fs)
  else (false, fsErase fs fp)

/-- Which branch of `_download_file` an entry finished in. -/
inductive DOutcome where
  | skipped
  | noSize
  | failed
  | crcMismatch
  | done
deriving DecidableEq

/-- Observable result of `_download_file` on one entry: the branch taken,
the final filesystem, the number of HEAD and GET requests issued, and the
backoff sleeps performed. -/
structure FileResult where
  outcome : DOutcome
  fs : FS
  heads : Nat
  gets : Nat
  sleeps : List Nat
deriving DecidableEq

/-- `ResourceDownloader._download_file` (ResourceDownloader.py lines
95-114): skip when the existing file's CRC matches; probe the size
(abort the entry when `None`); run the retrying transfer; verify the CRC
once.  Each branch simply `return`s — in particular the `crcMismatch`
branch returns without any further transfer attempt. -/
def downloadFile (crc32 : List Nat → Nat) (headResp : Nat → HeadResult)
    (getResp : Nat → GetResult) (fp : String) (crc : Nat) (retries : Nat) (fs : FS) :
    FileResult :=
  if checkExistingFile crc32 fs fp crc then
    { outcome := .skipped, fs := fs, heads := 0, gets := 0, sleeps := [] }
  else
    match getFileSize headResp with
    | (none, heads) => { outcome := .noSize, fs := fs, heads := heads, gets := 0, sleeps := [] }
    | (some size, heads) =>
      let r := downloadFileContent getResp fp size retries fs
      if r.success then
        match verifyDownload crc32 r.fs fp crc with
        | (true, fs') =>
          { outcome := .done, fs := fs', heads := heads, gets := r.attempts, sleeps := r.sleeps }
        | (false, fs') =>
          { outcome := .crcMismatch, fs := fs', heads := heads, gets := r.attempts,
            sleeps := r.sleeps }
      else { outcome := .failed, fs := r.fs, heads := heads, gets := r.attempts,
             sleeps := r.sleeps }

/-- One manifest entry as handed to `_download_category`, together with the
network oracles answering its requests. -/
structure Entry where
  url : String
  path : String
  crc : Nat
  headResp : Nat → HeadResult
  getResp : Nat → GetResult

/-- `ResourceDownloader._download_category` (ResourceDownloader.py lines
116-127): one `_download_file` task per entry, gathered; every entry is
processed regardless of other entries' outcomes (no exception escapes
`_download_file`).  Distinct entries write distinct paths, so the gather
is modelled by threading the filesystem through the entries in order. -/
def downloadCategory (crc32 : List Nat → Nat) (entries : List Entry) (fs : FS) :
    FS × List FileResult :=
  match entries with
  | [] => (fs, [])
  | e :: rest =>
    let r := downloadFile crc32 e.headResp e.getResp e.path e.crc 3 fs
    let (fs', rs) := downloadCategory crc32 rest r.fs
    (fs', r :: rs)

/- ## Theorems about the downloader -/

/-- A transfer attempt that the retry loop counts as failed: either the
request raised, or the byte count differs from the probed size. -/
def attemptFails (r : GetResult) (size : Nat) : Bool :=
  match r with
  | .ok c => !(c.length == size)
  | .netError => true

/-- The outcome list of `_download_category` has one element per entry. -/
theorem downloadCategory_length (crc32 : List Nat → Nat) :
    ∀ (entries : List Entry) (fs : FS),
      ((downloadCategory crc32 entries fs).2).length = entries.length
  | [], _ => rfl
  | e :: rest, fs => by
    simp only [downloadCategory]
    have := downloadCategory_length crc32 rest
      (downloadFile crc32 e.headResp e.getResp e.path e.crc 3 fs).fs
    simp [this]

/-- C3: an entry whose transfer attempts all fail is attempted exactly 3
times, with backoff sleeps of 1 then 2 time units between consecutive
attempts, and is then reported failed; and the batch always produces one
outcome per entry, so the failure does not stop the remaining entries. -/
theorem always_failing_entry_three_attempts
    (getResp : Nat → GetResult) (fp : String) (size : Nat) (fs : FS)
    (crc32 : List Nat → Nat) (entries : List Entry) (fs2 : FS)
    (H : ∀ a, a < 3 → attemptFails (getResp a) size = true) :
    (downloadFileContent getResp fp size 3 fs).success = false ∧
    (downloadFileContent getResp fp size 3 fs).attempts = 3 ∧
    (downloadFileContent getResp fp size 3 fs).sleeps = [1, 2] ∧
    ((downloadCategory crc32 entries fs2).2).length = entries.length := by
  have h0 := H 0 (by omega)
  have h1 := H 1 (by omega)
  have h2 := H 2 (by omega)
  refine ⟨?_, ?_, ?_, downloadCategory_length crc32 entries fs2⟩ <;>
    cases hg0 : getResp 0 <;> cases hg1 : getResp 1 <;> cases hg2 : getResp 2 <;>
      simp_all [downloadFileContent, downloadFileContentAux, attemptFails]

/-- Witness for `always_failing_entry_three_attempts` at a concrete
always-raising oracle. -/
theorem always_failing_entry_three_attempts_witness :
    (∀ a, a < 3 → attemptFails ((fun _ => GetResult.netError) a) 5 = true) ∧
    ((downloadFileContent (fun _ => GetResult.netError) "f" 5 3 []).success = false ∧
     (downloadFileContent (fun _ => GetResult.netError) "f" 5 3 []).attempts = 3 ∧
     (downloadFileContent (fun _ => GetResult.netError) "f" 5 3 []).sleeps = [1, 2] ∧
     ((downloadCategory (fun c => c.sum)
        [⟨"u", "p", 0, fun _ => HeadResult.clientError, fun _ => GetResult.netError⟩]
        []).2).length = 1) :=
  ⟨by decide,
   always_failing_entry_three_attempts (fun _ => GetResult.netError) "f" 5 []
     (fun c => c.sum)
     [⟨"u", "p", 0, fun _ => HeadResult.clientError, fun _ => GetResult.netError⟩]
     [] (by decide)⟩

/-- C4: when every entry's destination file already exists with matching
CRC-32, a run over the list skips every entry and issues zero network
requests (no HEAD probe, no GET), leaving the filesystem unchanged. -/
theorem valid_local_files_all_skipped_zero_network
    (crc32 : List Nat → Nat) (entries : List Entry) (fs : FS)
    (H : ∀ e ∈ entries, (fsLookup fs e.path).isSome = true ∧
         crc32 ((fsLookup fs e.path).getD []) = e.crc) :
    (downloadCategory crc32 entries fs).1 = fs ∧
    ∀ r ∈ (downloadCategory crc32 entries fs).2,
      r.outcome = DOutcome.skipped ∧ r.heads = 0 ∧ r.gets = 0 ∧ r.fs = fs := by
  induction entries with
  | nil => simp [downloadCategory]
  | cons e rest ih =>
    obtain ⟨hs, hc⟩ := H e (by simp)
    have hchk : checkExistingFile crc32 fs e.path e.crc = true := by
      unfold checkExistingFile
      cases hl : fsLookup fs e.path with
      | none => rw [hl] at hs; simp at hs
      | some c =>
        rw [hl] at hc
        simpa using hc
    have hdf : downloadFile crc32 e.headResp e.getResp e.path e.crc 3 fs =
        { outcome := .skipped, fs := fs, heads := 0, gets := 0, sleeps := [] } := by
      unfold downloadFile
      rw [hchk]
      simp
    have hrest := ih (fun e' h' => H e' (by simp [h']))
    constructor
    · simp only [downloadCategory, hdf]
      exact hrest.1
    · intro r hr
      simp only [downloadCategory, hdf] at hr
      rcases List.mem_cons.mp hr with h | h
      · subst h
        exact ⟨rfl, rfl, rfl, rfl⟩
      · exact hrest.2 r h

/-- Witness for `valid_local_files_all_skipped_zero_network`: one entry
whose file is present with matching CRC. -/
theorem valid_local_files_all_skipped_zero_network_witness :
    (∀ e ∈ [(⟨"u", "p", 5, fun _ => HeadResult.ok 2, fun _ => GetResult.ok [2, 3]⟩ : Entry)],
      (fsLookup [("p", [2, 3])] e.path).isSome = true ∧
      List.sum ((fsLookup [("p", [2, 3])] e.path).getD []) = e.crc) ∧
    ((downloadCategory List.sum
        [⟨"u", "p", 5, fun _ => HeadResult.ok 2, fun _ => GetResult.ok [2, 3]⟩]
        [("p", [2, 3])]).1 = [("p", [2, 3])] ∧
     ∀ r ∈ (downloadCategory List.sum
        [⟨"u", "p", 5, fun _ => HeadResult.ok 2, fun _ => GetResult.ok [2, 3]⟩]
        [("p", [2, 3])]).2,
        r.outcome = DOutcome.skipped ∧ r.heads = 0 ∧ r.gets = 0 ∧ r.fs = [("p", [2, 3])]) :=
  ⟨by decide,
   valid_local_files_all_skipped_zero_network List.sum
     [⟨"u", "p", 5, fun _ => HeadResult.ok 2, fun _ => GetResult.ok [2, 3]⟩]
     [("p", [2, 3])] (by decide)⟩

/-- C1: a transfer that completes with byte count equal to the probed size
but whose written CRC-32 differs from the declared CRC is deleted
(`_verify_download` unlinks it) — but contrary to the retry log line it
prints, `_download_file` then simply returns: exactly one GET was issued
and no further transfer attempt is made, although only 1 of the 3
permitted attempts was used. -/
theorem crc_mismatch_deletes_file_but_never_retries :
    downloadFile List.sum (fun _ => HeadResult.ok 3) (fun _ => GetResult.ok [1, 1, 1])
      "f" 999 3 [] =
      { outcome := DOutcome.crcMismatch, fs := [], heads := 1, gets := 1, sleeps := [] } ∧
    (1 : Nat) < 3 := by
  constructor
  · rfl
  · omega

/-- C9 counterexample: with a HEAD oracle that always times out, the size
probe is retried — `get_file_size` issues 10 HEAD requests, not 1, before
giving up; the entry is then aborted without any GET. -/
theorem size_probe_is_retried_on_timeout :
    getFileSize (fun _ => HeadResult.timeoutError) = (none, 10) ∧
    downloadFile List.sum (fun _ => HeadResult.timeoutError) (fun _ => GetResult.netError)
      "f" 7 3 [] =
      { outcome := DOutcome.noSize, fs := [], heads := 10, gets := 0, sleeps := [] } ∧
    (10 : Nat) ≠ 1 := by
  refine ⟨rfl, rfl, by omega⟩

/-- C9 amended: a `ClientError`/`ValueError` on the probe returns no size
after a single HEAD request; a timeout retries the probe, up to 10 HEAD
requests in all; and whenever no size is obtained the entry is aborted —
zero GET requests, no verification, filesystem untouched. -/
theorem size_probe_abort_behavior
    (h1 h2 headR : Nat → HeadResult) (crc32 : List Nat → Nat) (getResp : Nat → GetResult)
    (fp : String) (crc : Nat) (fs : FS) (heads : Nat)
    (Hc : h1 0 = HeadResult.clientError)
    (Ht : ∀ i, h2 i = HeadResult.timeoutError)
    (Hskip : checkExistingFile crc32 fs fp crc = false)
    (Hnone : getFileSize headR = (none, heads)) :
    getFileSize h1 = (none, 1) ∧
    getFileSize h2 = (none, 10) ∧
    downloadFile crc32 headR getResp fp crc 3 fs =
      { outcome := DOutcome.noSize, fs := fs, heads := heads, gets := 0, sleeps := [] } := by
  refine ⟨?_, ?_, ?_⟩
  · simp [getFileSize, getFileSizeAux, Hc]
  · simp [getFileSize, getFileSizeAux, Ht]
  · unfold downloadFile
    rw [Hskip, Hnone]
    simp

/-- Witness for `size_probe_abort_behavior` at concrete oracles. -/
theorem size_probe_abort_behavior_witness :
    getFileSize (fun _ => HeadResult.clientError) = (none, 1) ∧
    getFileSize (fun _ => HeadResult.timeoutError) = (none, 10) ∧
    downloadFile List.sum (fun _ => HeadResult.timeoutError) (fun _ => GetResult.netError)
      "g" 7 3 [] =
      { outcome := DOutcome.noSize, fs := [], heads := 10, gets := 0, sleeps := [] } :=
  size_probe_abort_behavior (fun _ => HeadResult.clientError) (fun _ => HeadResult.timeoutError)
    (fun _ => HeadResult.timeoutError) List.sum (fun _ => GetResult.netError)
    "g" 7 [] 10 rfl (fun _ => rfl) (by decide) (by decide)

/- ## Concurrency model for `download` / `_download_category` -/

/-- A per-entry network transfer operation: the HEAD size probe or the
streaming GET. -/
inductive TOp where
  | probe
  | stream
deriving DecidableEq

/-- A scheduling action: a transfer operation starting (the request goes
in flight) or finishing. -/
inductive TAct where
  | start (o : TOp)
  | finish (o : TOp)
deriving DecidableEq

/-- One event of a schedule: task `tid` performs action `act`. -/
structure TEv where
  tid : Nat
  act : TAct
deriving DecidableEq

/-- The network operations of one `_download_file` task on the success
path, in program order: the size probe, then the streaming GET
(ResourceDownloader.py lines 95-114). -/
def taskEvents (tid : Nat) : List TEv :=
  [⟨tid, .start .probe⟩, ⟨tid, .finish .probe⟩, ⟨tid, .start .stream⟩, ⟨tid, .finish .stream⟩]

/-- The events of a schedule belonging to task `tid`, in order. -/
def taskEventsOf (tid : Nat) (tr : List TEv) : List TEv :=
  List.filter (fun e => e.tid == tid) tr

/-- A schedule the `asyncio` event loop may realize for
`_download_category` over `n` entries: each of the `n` gathered
`_download_file` coroutines performs its network operations in program
order, and there is no constraint between distinct tasks — the code
contains no inter-task synchronization point (the `asyncio.Semaphore`
stored by `download` at ResourceDownloader.py line 174 is never acquired
anywhere in the file). -/
def validSchedule (n : Nat) (tr : List TEv) : Bool :=
  (List.range n).all (fun tid => taskEventsOf tid tr == taskEvents tid) &&
    tr.all (fun e => e.tid < n)

/-- The schedules `_download_category` can realize when `download` was
called with concurrency limit `lim`: because the semaphore built from
`lim` is never acquired, the set does not depend on `lim` at all. -/
def validScheduleWithLimit (n : Nat) (lim : Option Nat) (tr : List TEv) : Bool :=
  validSchedule n tr

/-- Number of operations in flight after a list of events, paired with the
maximum ever in flight along the way. -/
def inFlightCounts (tr : List TEv) : Nat × Nat :=
  tr.foldl
    (fun p e =>
      match e.act with
      | .start _ => (p.1 + 1, max p.2 (p.1 + 1))
      | .finish _ => (p.1 - 1, p.2))
    (0, 0)

/-- The largest number of simultaneously in-flight network transfers along
a schedule. -/
def maxInFlight (tr : List TEv) : Nat :=
  (inFlightCounts tr).2

/-- A concrete interleaving of two `_download_file` tasks in which both
size probes, and later both streaming GETs, are in flight at once. -/
def twoTaskOverlap : List TEv :=
  [⟨0, .start .probe⟩, ⟨1, .start .probe⟩, ⟨0, .finish .probe⟩, ⟨1, .finish .probe⟩,
   ⟨0, .start .stream⟩, ⟨1, .start .stream⟩, ⟨0, .finish .stream⟩, ⟨1, .finish .stream⟩]

/-- C2: with `limit = 1` and two entries, the event loop may still run both
entries' transfers simultaneously — `twoTaskOverlap` is a realizable
schedule and reaches 2 transfers in flight, exceeding the limit, because
the semaphore created from `limit` is never acquired by any task. -/
theorem limit_does_not_bound_in_flight_transfers :
    validScheduleWithLimit 2 (some 1) twoTaskOverlap = true ∧
    maxInFlight twoTaskOverlap = 2 ∧ 1 < 2 := by
  refine ⟨by decide, by decide, by omega⟩

/- ## CatalogParser.fetch_catalog_url (src/baad/utils/CatalogParser.py) -/

/-- Python `str.startswith`, on one candidate. -/
def strStartsWith (s pre : String) : Bool :=
  List.isPrefixOf pre.data s.data

/-- Python `c in s` for a single character. -/
def strContainsChar (s : String) (c : Char) : Bool :=
  s.data.contains c

/-- The fixed prefix used for build-token overrides
(CatalogParser.py line 82). -/
def prodClientPatch : String := "https://prod-clientpatch.bluearchiveyostar.com/"

/-- `CatalogParser.fetch_catalog_url` (CatalogParser.py lines 72-84): with
no override, resolve via the server-api document (modelled by
`serverResolve`); an override starting with `http://` or `https://` is
returned verbatim; an override containing `_` gets the prod-clientpatch
prefix; otherwise `https://` is prepended. -/
def fetchCatalogUrl (catalogUrl : Option String) (serverResolve : Unit → String) : String :=
  match catalogUrl with
  | none => serverResolve ()
  | some u =>
    if strStartsWith u "http://" || strStartsWith u "https://" then u
    else if strContainsChar u '_' then prodClientPatch ++ u
    else "https://" ++ u

/-- C5 counterexample: the override `"http"` does start with `http`, yet it
is not returned verbatim — the code tests for the full scheme prefixes
`http://`/`https://`, so `"http"` falls through to the bare-host branch
and becomes `"https://http"`. -/
theorem override_http_not_returned_verbatim :
    fetchCatalogUrl (some "http") (fun _ => "") = "https://http" ∧
    strStartsWith "http" "http" = true ∧
    "https://http" ≠ "http" := by
  refine ⟨by decide, by decide, by decide⟩

/-- C5 amended: an override starting with `http://` or `https://` is
returned verbatim; otherwise an override containing `_` resolves to the
prod-clientpatch prefix followed by the override; otherwise to `https://`
followed by the override; with no override the server-api resolution is
used. -/
theorem catalog_url_override_resolution
    (u1 u2 u3 : String) (f : Unit → String)
    (H1 : strStartsWith u1 "http://" = true ∨ strStartsWith u1 "https://" = true)
    (H2a : strStartsWith u2 "http://" = false) (H2b : strStartsWith u2 "https://" = false)
    (H2c : strContainsChar u2 '_' = true)
    (H3a : strStartsWith u3 "http://" = false) (H3b : strStartsWith u3 "https://" = false)
    (H3c : strContainsChar u3 '_' = false) :
    fetchCatalogUrl (some u1) f = u1 ∧
    fetchCatalogUrl (some u2) f = prodClientPatch ++ u2 ∧
    fetchCatalogUrl (some u3) f = "https://" ++ u3 ∧
    fetchCatalogUrl none f = f () := by
  refine ⟨?_, ?_, ?_, rfl⟩
  · rcases H1 with h | h <;> simp [fetchCatalogUrl, h]
  · simp [fetchCatalogUrl, H2a, H2b, H2c]
  · simp [fetchCatalogUrl, H3a, H3b, H3c]

/-- Witness for `catalog_url_override_resolution` at concrete overrides. -/
theorem catalog_url_override_resolution_witness :
    fetchCatalogUrl (some "http://a.example/x") (fun _ => "S") = "http://a.example/x" ∧
    fetchCatalogUrl (some "r68_1_25") (fun _ => "S") = prodClientPatch ++ "r68_1_25" ∧
    fetchCatalogUrl (some "cdn.example.com") (fun _ => "S") = "https://" ++ "cdn.example.com" ∧
    fetchCatalogUrl none (fun _ => "S") = "S" :=
  catalog_url_override_resolution "http://a.example/x" "r68_1_25" "cdn.example.com"
    (fun _ => "S") (Or.inl (by decide)) (by decide) (by decide) (by decide)
    (by decide) (by decide) (by decide)

/- ## CatalogFetcher.find_game_config (src/baad/utils/CatalogFetcher.py) -/

/-- The fixed 20-byte bootstrap signature (CatalogFetcher.py lines 54-57). -/
def gameConfigSignature : List Nat :=
  [0x47, 0x61, 0x6D, 0x65, 0x4D, 0x61, 0x69, 0x6E, 0x43, 0x6F, 0x6E, 0x66,
   0x69, 0x67, 0x00, 0x00, 0x92, 0x03, 0x00, 0x00]

/-- Index of the first occurrence of `pat` in `content`
(Python `content.index(pattern)`, guarded by `pattern in content`). -/
def indexOfSub (content pat : List Nat) : Option Nat :=
  match content with
  | [] => if List.isPrefixOf pat [] then some 0 else none
  | _ :: t =>
    if List.isPrefixOf pat content then some 0
    else (indexOfSub t pat).map (· + 1)

/-- Python `data[:-2]`: drop the final two bytes. -/
def trimLastTwo (l : List Nat) : List Nat :=
  l.take (l.length - 2)

/-- `_search_for_pattern` (CatalogFetcher.py lines 10-29) over one root's
readable files, in traversal order: the first file containing the
signature yields the bytes after its first occurrence with the final two
bytes trimmed — even when that payload is empty. -/
def searchForSignature (files : List (List Nat)) (pat : List Nat) : Option (List Nat) :=
  match files with
  | [] => none
  | c :: rest =>
    match indexOfSub c pat with
    | some i => some (trimLastTwo (c.drop (i + pat.length)))
    | none => searchForSignature rest pat

/-- `find_game_config` (CatalogFetcher.py lines 53-79) over its ordered
candidate roots, each a list of file contents: per root run
`_search_for_pattern`; the Python code tests the result with `if result:`,
so an empty payload is falsy and the search falls through to the next
root. -/
def findGameConfig (roots : List (List (List Nat))) : Option (List Nat) :=
  match roots with
  | [] => none
  | r :: rest =>
    match searchForSignature r gameConfigSignature with
    | some res => if res.isEmpty then findGameConfig rest else some res
    | none => findGameConfig rest

/-- C6 counterexample: one root holding one file whose content is exactly
the 20-byte signature.  The signature occurs (at index 0), so the claim
says the trimmed following bytes (the empty payload) are returned and the
search stops; but `if result:` treats the empty payload as falsy, and
`find_game_config` returns `NotFound` even though a root contains the
signature. -/
theorem empty_payload_not_returned :
    indexOfSub gameConfigSignature gameConfigSignature = some 0 ∧
    findGameConfig [[gameConfigSignature]] = none := by
  refine ⟨by decide, by decide⟩

/-- C6 amended: per root, the first file containing the signature yields
the bytes after the signature's first occurrence with the final two bytes
trimmed; roots are scanned in priority order, and the search stops at the
first root whose payload is non-empty (so an earlier root's non-empty
payload takes precedence over later roots); a root with no match, or
whose payload is empty, falls through to the next root; if every root
falls through the result is `NotFound`. -/
theorem game_config_search_resolution
    (c : List Nat) (i : Nat) (files : List (List Nat))
    (root : List (List Nat)) (rest : List (List (List Nat))) (p : List Nat)
    (Hidx : indexOfSub c gameConfigSignature = some i)
    (Hfound : searchForSignature root gameConfigSignature = some p)
    (Hne : p ≠ []) :
    searchForSignature (c :: files) gameConfigSignature =
      some (trimLastTwo (c.drop (i + 20))) ∧
    findGameConfig (root :: rest) = some p ∧
    (∀ c' files', indexOfSub c' gameConfigSignature = none →
      searchForSignature (c' :: files') gameConfigSignature =
        searchForSignature files' gameConfigSignature) ∧
    (∀ root' rest', searchForSignature root' gameConfigSignature = none →
      findGameConfig (root' :: rest') = findGameConfig rest') ∧
    (∀ root' rest', searchForSignature root' gameConfigSignature = some [] →
      findGameConfig (root' :: rest') = findGameConfig rest') ∧
    findGameConfig [] = none := by
  refine ⟨?_, ?_, ?_, ?_, ?_, rfl⟩
  · have : gameConfigSignature.length = 20 := by decide
    simp [searchForSignature, Hidx, this]
  · simp [findGameConfig, Hfound, Hne]
  · intro c' files' h
    simp [searchForSignature, h]
  · intro root' rest' h
    simp [findGameConfig, h]
  · intro root' rest' h
    simp [findGameConfig, h]

/-- Witness for `game_config_search_resolution`: a file whose payload after
the signature is `[9, 9, 9]` before trimming, so `[9]` is returned. -/
theorem game_config_search_resolution_witness :
    searchForSignature [gameConfigSignature ++ [9, 9, 9]] gameConfigSignature =
      some (trimLastTwo ((gameConfigSignature ++ [9, 9, 9]).drop (0 + 20))) ∧
    findGameConfig [[gameConfigSignature ++ [9, 9, 9]]] = some [9] ∧
    (∀ c' files', indexOfSub c' gameConfigSignature = none →
      searchForSignature (c' :: files') gameConfigSignature =
        searchForSignature files' gameConfigSignature) ∧
    (∀ root' rest', searchForSignature root' gameConfigSignature = none →
      findGameConfig (root' :: rest') = findGameConfig rest') ∧
    (∀ root' rest', searchForSignature root' gameConfigSignature = some [] →
      findGameConfig (root' :: rest') = findGameConfig rest') ∧
    findGameConfig [] = none :=
  game_config_search_resolution (gameConfigSignature ++ [9, 9, 9]) 0 []
    [gameConfigSignature ++ [9, 9, 9]] [] [9]
    (by decide) (by decide) (by decide)

/- ## CatalogParser fetch layer (src/baad/utils/CatalogParser.py) -/

/-- One remote response: an HTTP response with status and body, a raised
`ConnectionError`, or a raised `TimeoutError`. -/
inductive NetResp where
  | resp (status : Nat) (body : List Nat)
  | connError
  | timeout
deriving DecidableEq

/-- The Python exceptions that can escape the fetch layer. -/
inductive PyErr where
  | httpError (status : Nat)
  | connectionError
  | timeoutRaised
  | jsonError
  | systemExit (code : Nat)
  | mediaAllPathsFailed
deriving DecidableEq

instance {ε α : Type} [DecidableEq ε] [DecidableEq α] : DecidableEq (Except ε α) := fun x y =>
  match x, y with
  | .ok a, .ok b =>
    if h : a = b then isTrue (by rw [h]) else isFalse (fun he => h (Except.ok.inj he))
  | .ok _, .error _ => isFalse (fun he => Except.noConfusion he)
  | .error _, .ok _ => isFalse (fun he => Except.noConfusion he)
  | .error e, .error f =>
    if h : e = f then isTrue (by rw [h]) else isFalse (fun he => h (Except.error.inj he))

/-- `CatalogParser._fetch_bytes` (CatalogParser.py lines 28-34): GET the
URL; any non-200 status raises `Exception` (here `httpError`); a raised
connection/timeout error is not caught and propagates. -/
def fetchBytes (net : String → NetResp) (catalog file : String) : Except PyErr (List Nat) :=
  match net (catalog ++ file) with
  | .resp s b => if s == 200 then .ok b else .error (.httpError s)
  | .connError => .error .connectionError
  | .timeout => .error .timeoutRaised

/-- `CatalogParser._fetch_table_bytes` (CatalogParser.py lines 46-47). -/
def fetchTableBytes (net : String → NetResp) (catalog : String) : Except PyErr (List Nat) :=
  fetchBytes net catalog "/TableBundles/TableCatalog.bytes"

/-- `CatalogParser._fetch_media_bytes` (CatalogParser.py lines 49-61): two
alternate remote paths tried in order, any exception from the first falls
through to the second; if both fail, `Exception("Failed to fetch media
bytes from all available paths")` is raised. -/
def fetchMediaBytes (net : String → NetResp) (catalog : String) : Except PyErr (List Nat) :=
  match fetchBytes net catalog "/MediaResources/Catalog/MediaCatalog.bytes" with
  | .ok b => .ok b
  | .error _ =>
    match fetchBytes net catalog "/MediaResources/MediaCatalog.bytes" with
    | .ok b => .ok b
    | .error _ => .error .mediaAllPathsFailed

/-- `CatalogParser._fetch_data` (CatalogParser.py lines 63-70): GET the URL
and parse JSON; `ConnectionError`/`TimeoutError` raise `SystemExit(1)`;
the status code is never checked, and a body that is not valid JSON raises
an uncaught decode error. -/
def fetchData (net : String → NetResp) (isJson : List Nat → Bool) (url : String) :
    Except PyErr (List Nat) :=
  match net url with
  | .connError => .error (.systemExit 1)
  | .timeout => .error (.systemExit 1)
  | .resp _ b => if isJson b then .ok b else .error .jsonError

/-- `CatalogParser.fetch_catalogs` (CatalogParser.py lines 86-102): fetch
the Android and iOS bundle indices, the table catalog bytes and the media
catalog bytes, in that order, caching each; nothing is caught here, so any
error propagates and aborts the whole acquisition.  (The decode steps
through `CatalogDecrypter.from_bytes` operate on already-fetched bytes and
are irrelevant to which fetch errors escape.) -/
def fetchCatalogs (net : String → NetResp) (isJson : List Nat → Bool) (serverUrl : String) :
    Except PyErr Unit :=
  match fetchData net isJson (serverUrl ++ "/Android/bundleDownloadInfo.json") with
  | .error e => .error e
  | .ok _ =>
    match fetchData net isJson (serverUrl ++ "/iOS/bundleDownloadInfo.json") with
    | .error e => .error e
    | .ok _ =>
      match fetchTableBytes net serverUrl with
      | .error e => .error e
      | .ok _ =>
        match fetchMediaBytes net serverUrl with
        | .error e => .error e
        | .ok _ => .ok ()

/-- The fixed latest-version index URL (`fetch_version`,
CatalogParser.py lines 148-151). -/
def latestVersionUrl : String := "https://prod-noticeindex.bluearchiveyostar.com/prod/index.json"

/-- `CatalogParser.fetch_version`. -/
def fetchVersion (net : String → NetResp) (isJson : List Nat → Bool) :
    Except PyErr (List Nat) :=
  fetchData net isJson latestVersionUrl

/-- A network where every document exists except the table catalog, which
is missing (HTTP 404). -/
def tableMissingNet : String → NetResp := fun url =>
  if url = "S" ++ "/TableBundles/TableCatalog.bytes" then NetResp.resp 404 []
  else NetResp.resp 200 [123]

/-- C8 counterexample: with the table catalog missing from the remote
server (404), `fetch_catalogs` raises the HTTP error and the whole
acquisition aborts — it does not yield an empty table list and continue. -/
theorem missing_manifest_aborts_acquisition :
    fetchCatalogs tableMissingNet (fun _ => true) "S" =
      Except.error (PyErr.httpError 404) ∧
    Except.error (PyErr.httpError 404) ≠ (Except.ok () : Except PyErr Unit) := by
  refine ⟨by decide, by decide⟩

/-- C8 amended: a connection error on the latest-version index or on a
bundle-index JSON raises `SystemExit(1)` (non-zero exit); a manifest
document missing from the remote server (non-200) raises an error that
aborts the whole acquisition rather than yielding an empty list — except
that the media catalog is tried at two alternate paths, so a missing first
media path degrades to the second and acquisition completes. -/
theorem manifest_fetch_failure_propagation
    (net1 net2 net3 net4 : String → NetResp)
    (isJson1 isJson2 isJson3 isJson4 : List Nat → Bool)
    (s2 s3 s4 : String) (bA bI bA4 bI4 bT bM : List Nat) (body : List Nat)
    (H1 : net1 latestVersionUrl = NetResp.connError)
    (H2 : net2 (s2 ++ "/Android/bundleDownloadInfo.json") = NetResp.connError)
    (H3a : fetchData net3 isJson3 (s3 ++ "/Android/bundleDownloadInfo.json") = Except.ok bA)
    (H3b : fetchData net3 isJson3 (s3 ++ "/iOS/bundleDownloadInfo.json") = Except.ok bI)
    (H3c : net3 (s3 ++ "/TableBundles/TableCatalog.bytes") = NetResp.resp 404 body)
    (H4a : fetchData net4 isJson4 (s4 ++ "/Android/bundleDownloadInfo.json") = Except.ok bA4)
    (H4b : fetchData net4 isJson4 (s4 ++ "/iOS/bundleDownloadInfo.json") = Except.ok bI4)
    (H4c : fetchTableBytes net4 s4 = Except.ok bT)
    (H4d : net4 (s4 ++ "/MediaResources/Catalog/MediaCatalog.bytes") = NetResp.resp 404 [])
    (H4e : net4 (s4 ++ "/MediaResources/MediaCatalog.bytes") = NetResp.resp 200 bM) :
    fetchVersion net1 isJson1 = Except.error (PyErr.systemExit 1) ∧
    fetchCatalogs net2 isJson2 s2 = Except.error (PyErr.systemExit 1) ∧
    fetchCatalogs net3 isJson3 s3 = Except.error (PyErr.httpError 404) ∧
    fetchCatalogs net4 isJson4 s4 = Except.ok () := by
  refine ⟨?_, ?_, ?_, ?_⟩
  · simp [fetchVersion, fetchData, H1]
  · simp [fetchCatalogs, fetchData, H2]
  · simp [fetchCatalogs, fetchTableBytes, fetchBytes, H3a, H3b, H3c]
  · simp [fetchCatalogs, fetchMediaBytes, fetchBytes, H4a, H4b, H4c, H4d, H4e]

/-- A network where only the first media catalog path is missing. -/
def mediaFirstPathMissingNet : String → NetResp := fun url =>
  if url = "S" ++ "/MediaResources/Catalog/MediaCatalog.bytes" then NetResp.resp 404 []
  else NetResp.resp 200 [7]

/-- Witness for `manifest_fetch_failure_propagation` at concrete
networks. -/
theorem manifest_fetch_failure_propagation_witness :
    fetchVersion (fun _ => NetResp.connError) (fun _ => true) =
      Except.error (PyErr.systemExit 1) ∧
    fetchCatalogs (fun _ => NetResp.connError) (fun _ => true) "S" =
      Except.error (PyErr.systemExit 1) ∧
    fetchCatalogs tableMissingNet (fun _ => true) "S" =
      Except.error (PyErr.httpError 404) ∧
    fetchCatalogs mediaFirstPathMissingNet (fun _ => true) "S" = Except.ok () :=
  manifest_fetch_failure_propagation (fun _ => NetResp.connError) (fun _ => NetResp.connError)
    tableMissingNet mediaFirstPathMissingNet
    (fun _ => true) (fun _ => true) (fun _ => true) (fun _ => true)
    "S" "S" "S" [123] [123] [7] [7] [7] [7] []
    rfl rfl (by decide) (by decide) (by decide)
    (by decide) (by decide) (by decide) (by decide) (by decide)

/- ## CatalogParser.get_game_files (src/baad/utils/CatalogParser.py) -/

/-- Python `s.replace("\x5c", "/")`: single-character replacement is a
character-wise map. -/
def replaceBackslash (s : String) : String :=
  ⟨s.data.map fun c => if c = '\\' then '/' else c⟩

/-- One raw Android/iOS bundle-index record: `Name` plus optional `Crc`
and `Size` (read with `.get(_, 0)`). -/
structure RawAsset where
  name : String
  crc : Option Nat
  size : Option Nat

/-- One raw table-catalog record value: optional `crc` and `size`. -/
structure RawTable where
  crc : Option Nat
  size : Option Nat

/-- One raw media-catalog record value: `path` plus optional `crc` and
`bytes`. -/
structure RawMedia where
  path : String
  crc : Option Nat
  bytes : Option Nat

/-- A normalized Android/iOS/table entry: `url`, `crc`, `size`. -/
structure AssetOut where
  url : String
  crc : Nat
  size : Nat

/-- A normalized media entry: `url`, `path`, `crc`, `bytes`. -/
structure MediaOut where
  url : String
  path : String
  crc : Nat
  bytes : Nat

/-- The normalized `GameFiles` index. -/
structure GameFiles where
  androidAssetBundles : List AssetOut
  iosAssetBundles : List AssetOut
  tableBundles : List AssetOut
  mediaResources : List MediaOut

/-- `CatalogParser.get_game_files` (CatalogParser.py lines 104-146): joins
`server_url` with the per-category segment and the raw name/key/path;
only the `MediaResources` category applies `.replace("\x5c", "/")` — to
the whole joined url and to the `path` field — the other three categories
join verbatim. -/
def getGameFiles (serverUrl : String) (android ios : List RawAsset)
    (tables : List (String × RawTable)) (media : List (String × RawMedia)) : GameFiles where
  androidAssetBundles := android.map fun a =>
    ⟨serverUrl ++ "/Android/" ++ a.name, a.crc.getD 0, a.size.getD 0⟩
  iosAssetBundles := ios.map fun a =>
    ⟨serverUrl ++ "/iOS/" ++ a.name, a.crc.getD 0, a.size.getD 0⟩
  tableBundles := tables.map fun kv =>
    ⟨serverUrl ++ "/TableBundles/" ++ kv.1, kv.2.crc.getD 0, kv.2.size.getD 0⟩
  mediaResources := media.map fun kv =>
    ⟨replaceBackslash (serverUrl ++ "/MediaResources/" ++ kv.2.path),
     replaceBackslash kv.2.path, kv.2.crc.getD 0, kv.2.bytes.getD 0⟩

/-- `replaceBackslash` output never contains a backslash. -/
theorem replaceBackslash_no_backslash (s : String) : '\\' ∉ (replaceBackslash s).data := by
  intro h
  simp only [replaceBackslash, List.mem_map] at h
  obtain ⟨c, -, hc⟩ := h
  by_cases h' : c = '\\' <;> simp [h'] at hc

/-- C10: in the normalized index, every MediaResources entry's `url` and
`path` contain no backslash — each is the raw joined value with every
backslash replaced by `/` — while the other three categories' urls are
the verbatim joins of `server_url`, category segment and raw name/key. -/
theorem media_entries_backslash_normalized (serverUrl : String)
    (android ios : List RawAsset) (tables : List (String × RawTable))
    (media : List (String × RawMedia)) :
    (∀ m ∈ (getGameFiles serverUrl android ios tables media).mediaResources,
      '\\' ∉ m.url.data ∧ '\\' ∉ m.path.data ∧
      ∃ kv ∈ media, m.path = replaceBackslash kv.2.path ∧
        m.url = replaceBackslash (serverUrl ++ "/MediaResources/" ++ kv.2.path)) ∧
    (∀ a ∈ (getGameFiles serverUrl android ios tables media).androidAssetBundles,
      ∃ ra ∈ android, a.url = serverUrl ++ "/Android/" ++ ra.name) ∧
    (∀ a ∈ (getGameFiles serverUrl android ios tables media).iosAssetBundles,
      ∃ ra ∈ ios, a.url = serverUrl ++ "/iOS/" ++ ra.name) ∧
    (∀ a ∈ (getGameFiles serverUrl android ios tables media).tableBundles,
      ∃ kv ∈ tables, a.url = serverUrl ++ "/TableBundles/" ++ kv.1) := by
  refine ⟨?_, ?_, ?_, ?_⟩
  · intro m hm
    simp only [getGameFiles, List.mem_map] at hm
    obtain ⟨kv, hkv, rfl⟩ := hm
    exact ⟨replaceBackslash_no_backslash _, replaceBackslash_no_backslash _,
      kv, hkv, rfl, rfl⟩
  · intro a ha
    simp only [getGameFiles, List.mem_map] at ha
    obtain ⟨ra, hra, rfl⟩ := ha
    exact ⟨ra, hra, rfl⟩
  · intro a ha
    simp only [getGameFiles, List.mem_map] at ha
    obtain ⟨ra, hra, rfl⟩ := ha
    exact ⟨ra, hra, rfl⟩
  · intro a ha
    simp only [getGameFiles, List.mem_map] at ha
    obtain ⟨kv, hkv, rfl⟩ := ha
    exact ⟨kv, hkv, rfl⟩

/-- Witness for `media_entries_backslash_normalized` on a one-entry media
catalog whose raw path contains backslashes. -/
theorem media_entries_backslash_normalized_witness :
    (∀ m ∈ (getGameFiles "S" [] [] [] [("k", ⟨"a\\b\\c.mp4", some 3, some 4⟩)]).mediaResources,
      '\\' ∉ m.url.data ∧ '\\' ∉ m.path.data ∧
      ∃ kv ∈ [(("k" : String), (⟨"a\\b\\c.mp4", some 3, some 4⟩ : RawMedia))],
        m.path = replaceBackslash kv.2.path ∧
        m.url = replaceBackslash ("S" ++ "/MediaResources/" ++ kv.2.path)) ∧
    (∀ a ∈ (getGameFiles "S" [] [] [] [("k", ⟨"a\\b\\c.mp4", some 3, some 4⟩)]).androidAssetBundles,
      ∃ ra ∈ ([] : List RawAsset), a.url = "S" ++ "/Android/" ++ ra.name) ∧
    (∀ a ∈ (getGameFiles "S" [] [] [] [("k", ⟨"a\\b\\c.mp4", some 3, some 4⟩)]).iosAssetBundles,
      ∃ ra ∈ ([] : List RawAsset), a.url = "S" ++ "/iOS/" ++ ra.name) ∧
    (∀ a ∈ (getGameFiles "S" [] [] [] [("k", ⟨"a\\b\\c.mp4", some 3, some 4⟩)]).tableBundles,
      ∃ kv ∈ ([] : List (String × RawTable)), a.url = "S" ++ "/TableBundles/" ++ kv.1) :=
  media_entries_backslash_normalized "S" [] [] [] [("k", ⟨"a\\b\\c.mp4", some 3, some 4⟩)]

/- ## TableZipFile (src/baad/lib/TableService.py) -/

/-- Truncate to an unsigned 32-bit value. -/
def u32 (n : Nat) : Nat := n % 4294967296

/-- 32-bit left rotation (operands assumed < 2^32). -/
def rotl32 (x r : Nat) : Nat := u32 (u32 (x * 2 ^ r) + x / 2 ^ (32 - r))

/-- UTF-8 encoding of one character. -/
def utf8EncodeChar (c : Char) : List Nat :=
  let n := c.toNat
  if n < 128 then [n]
  else if n < 2048 then [192 + n / 64, 128 + n % 64]
  else if n < 65536 then [224 + n / 4096, 128 + n / 64 % 64, 128 + n % 64]
  else [240 + n / 262144, 128 + n / 4096 % 64, 128 + n / 64 % 64, 128 + n % 64]

/-- UTF-8 bytes of a string. -/
def utf8Bytes (s : String) : List Nat := s.data.flatMap utf8EncodeChar

def xxP1 : Nat := 2654435761
def xxP2 : Nat := 2246822519
def xxP3 : Nat := 3266489917
def xxP4 : Nat := 668265263
def xxP5 : Nat := 374761393

/-- A 32-bit little-endian word from four bytes. -/
def leWord4 (b0 b1 b2 b3 : Nat) : Nat := b0 + 256 * b1 + 65536 * b2 + 16777216 * b3

/-- One XXHash32 accumulator round. -/
def xxRound (acc lane : Nat) : Nat :=
  u32 (rotl32 (u32 (acc + u32 (lane * xxP2))) 13 * xxP1)

/-- XXHash32 main loop: consume 16-byte stripes while at least 16 bytes
remain, returning the four accumulators and the remaining bytes. -/
def xxBlocks (v1 v2 v3 v4 : Nat) : List Nat → (Nat × Nat × Nat × Nat) × List Nat
  | b0 :: b1 :: b2 :: b3 :: b4 :: b5 :: b6 :: b7 ::
    b8 :: b9 :: b10 :: b11 :: b12 :: b13 :: b14 :: b15 :: rest =>
    xxBlocks (xxRound v1 (leWord4 b0 b1 b2 b3)) (xxRound v2 (leWord4 b4 b5 b6 b7))
      (xxRound v3 (leWord4 b8 b9 b10 b11)) (xxRound v4 (leWord4 b12 b13 b14 b15)) rest
  | l => ((v1, v2, v3, v4), l)

/-- XXHash32 tail: consume remaining 4-byte words, then single bytes. -/
def xxTail (acc : Nat) : List Nat → Nat
  | b0 :: b1 :: b2 :: b3 :: rest =>
    xxTail (u32 (rotl32 (u32 (acc + u32 (leWord4 b0 b1 b2 b3 * xxP3))) 17 * xxP4)) rest
  | rest =>
    rest.foldl (fun a b => u32 (rotl32 (u32 (a + u32 (b * xxP5))) 11 * xxP1)) acc

/-- XXHash32 final avalanche. -/
def xxAvalanche (h : Nat) : Nat :=
  let h1 := u32 ((h ^^^ (h / 2 ^ 15)) * xxP2)
  let h2 := u32 ((h1 ^^^ (h1 / 2 ^ 13)) * xxP3)
  h2 ^^^ (h2 / 2 ^ 16)

/-- XXHash32 of a byte sequence with the given seed. -/
def xxhash32 (bytes : List Nat) (seed : Nat) : Nat :=
  let len := bytes.length
  let (acc0, rest) :=
    if 16 ≤ len then
      let ((v1, v2, v3, v4), rest) :=
        xxBlocks (u32 (seed + xxP1 + xxP2)) (u32 (seed + xxP2)) (u32 seed)
          (u32 (seed + 4294967296 - xxP1)) bytes
      (u32 (rotl32 v1 1 + rotl32 v2 7 + rotl32 v3 12 + rotl32 v4 18), rest)
    else (u32 (seed + xxP5), bytes)
  xxAvalanche (xxTail (u32 (acc0 + len)) rest)

/-- Modelled from the spec: `XXHashService.calculate_hash` (imported by
TableService.py line 8) is not under `src/`; per spec §4.1 the seed is "a
32-bit non-cryptographic hash (XXHash32-class, fixed secret) computed
over a UTF-8 seed string". -/
def calculateHash (s : String) : Nat := xxhash32 (utf8Bytes s) 0

/-- MT19937 state initialization, remaining elements after the first. -/
def mtInitAux (prev i : Nat) : Nat → List Nat
  | 0 => []
  | fuel + 1 =>
    let cur := u32 (1812433253 * (prev ^^^ (prev / 2 ^ 30)) + i)
    cur :: mtInitAux cur (i + 1) fuel

/-- MT19937 state initialization from a 32-bit seed (624 words). -/
def mtInit (seed : Nat) : List Nat :=
  let s0 := u32 seed
  s0 :: mtInitAux s0 1 623

/-- One in-place MT19937 twist pass over the 624-word state. -/
def mtTwistAux (mt : List Nat) (i : Nat) : Nat → List Nat
  | 0 => mt
  | fuel + 1 =>
    let y := ((mt.getD i 0) &&& 2147483648) + ((mt.getD ((i + 1) % 624) 0) &&& 2147483647)
    let z := (mt.getD ((i + 397) % 624) 0) ^^^ (y / 2) ^^^ (if y % 2 = 1 then 2567483615 else 0)
    mtTwistAux (mt.set i z) (i + 1) fuel

/-- The MT19937 twist. -/
def mtTwist (mt : List Nat) : List Nat := mtTwistAux mt 0 624

/-- MT19937 output tempering. -/
def mtTemper (x : Nat) : Nat :=
  let y1 := x ^^^ (x / 2 ^ 11)
  let y2 := y1 ^^^ (u32 (y1 * 2 ^ 7) &&& 2636928640)
  let y3 := y2 ^^^ (u32 (y2 * 2 ^ 15) &&& 4022730752)
  y3 ^^^ (y3 / 2 ^ 18)

/-- Little-endian serialization of one 32-bit word. -/
def u32le (w : Nat) : List Nat := [w % 256, w / 256 % 256, w / 65536 % 256, w / 16777216 % 256]

/-- Modelled from the spec: `MersenneTwister.next_bytes` (imported by
TableService.py line 7) is not under `src/`; per spec §4.1 the generator
is MT19937 seeded with the 32-bit seed, and `deriveStream(seed, length)`
"produces successive raw 32-bit words, serialized little-endian into a
byte buffer truncated to `length`". -/
def mtNextBytes (seed n : Nat) : List Nat :=
  ((((mtTwist (mtInit seed)).take ((n + 3) / 4)).map mtTemper).flatMap u32le).take n

/-- The base64 alphabet. -/
def b64Chars : List Char :=
  "ABCDEFGHIJKLMNOPQRSTUVWXYZabcdefghijklmnopqrstuvwxyz0123456789+/".data

def b64Char (n : Nat) : Char := b64Chars.getD n 'A'

/-- Standard base64 encoding of a byte sequence (`base64.b64encode`). -/
def b64encode : List Nat → List Char
  | [] => []
  | [b0] =>
    let n := b0 * 65536
    [b64Char (n / 262144), b64Char (n / 4096 % 64), '=', '=']
  | [b0, b1] =>
    let n := b0 * 65536 + b1 * 256
    [b64Char (n / 262144), b64Char (n / 4096 % 64), b64Char (n / 64 % 64), '=']
  | b0 :: b1 :: b2 :: rest =>
    let n := b0 * 65536 + b1 * 256 + b2
    b64Char (n / 262144) :: b64Char (n / 4096 % 64) :: b64Char (n / 64 % 64) ::
      b64Char (n % 64) :: b64encode rest

/-- Python `Path(file).name`: the final path component. -/
def pathBasename (file : String) : String := (file.splitOn "/").getLastD file

/-- An opened `TableZipFile`: the underlying archive plus the password
stored at construction time. -/
structure TableZip where
  fileName : String
  password : List Char

/-- `TableZipFile._generate_password` (TableService.py lines 21-25):
base64 of the first 15 keystream bytes of a Mersenne twister seeded with
the hash of the file name. -/
def generatePassword (fileName : String) : List Char :=
  b64encode (mtNextBytes (calculateHash fileName) 15)

/-- `TableZipFile.__init__` (TableService.py lines 12-19): an explicit
password is stored verbatim; otherwise the password is derived from the
lower-cased base name of the archive file, at construction time. -/
def tableZipInit (file : String) (password : Option (List Char)) : TableZip :=
  match password with
  | some pw => ⟨file, pw⟩
  | none => ⟨file, generatePassword (pathBasename file).toLower⟩

/-- `TableZipFile.open` (TableService.py lines 27-28): every entry read
passes `pwd=self.password`.  Returns the entry name paired with the
password handed to the underlying zip reader. -/
def tableZipOpenEntry (z : TableZip) (entryName : String) : String × List Char :=
  (entryName, z.password)

/-- C7: with no explicit password, the password stored at open time is
`base64(deriveStream(hash(lowercased filename), 15))`, and every
subsequent entry read uses exactly that stored password; with an explicit
password, that password is used verbatim for every entry read. -/
theorem archive_password_derivation (file : String) (pw : List Char) :
    (tableZipInit file none).password =
      b64encode (mtNextBytes (calculateHash (pathBasename file).toLower) 15) ∧
    (tableZipInit file (some pw)).password = pw ∧
    (∀ e : String, (tableZipOpenEntry (tableZipInit file none) e).2 =
      b64encode (mtNextBytes (calculateHash (pathBasename file).toLower) 15)) ∧
    (∀ e : String, (tableZipOpenEntry (tableZipInit file (some pw)) e).2 = pw) := by
  refine ⟨?_, ?_, fun _ => ?_, fun _ => ?_⟩ <;>
    simp [tableZipInit, tableZipOpenEntry, generatePassword]
